import Mathlib

/-!
Verification of the link-validation and classification pipeline of
`check_broken_images.py`.

Python strings are modelled as lists of characters (`Str`); Python's
substring test `pat in s` is the function `inStr`; `str.lower()` is a
character-wise `Char.toLower` (faithful on the ASCII inputs this program
works with).  Fallible Python code is modelled in `Except Str`, an
uncaught exception being an `.error` carrying its message.

Boundary collaborators (HTTP transport, markup parser, `urljoin`,
filesystem) are injected as explicit function records, following §6 of
the design: the `Net`, `Env` and `FS` structures.  `urllib.parse.urlparse`
is modelled from CPython's algorithm for the components this program
reads (scheme, netloc, path, params split); the control-character
stripping CPython performs on the raw URL and its IPv6-bracket
validation are omitted, as no input of interest contains such
characters.
-/

namespace CheckBrokenImages

/-- Equality of modelled fallible results is decidable. -/
instance {ε α : Type} [DecidableEq ε] [DecidableEq α] : DecidableEq (Except ε α) :=
  fun x y =>
    match x, y with
    | .ok a, .ok b =>
      if h : a = b then .isTrue (by rw [h])
      else .isFalse (by intro hc; cases hc; exact h rfl)
    | .error a, .error b =>
      if h : a = b then .isTrue (by rw [h])
      else .isFalse (by intro hc; cases hc; exact h rfl)
    | .ok _, .error _ => .isFalse (by intro hc; cases hc)
    | .error _, .ok _ => .isFalse (by intro hc; cases hc)

/-- Python strings as lists of characters. -/
abbrev Str := List Char

/-- Conversion from a Lean string literal to the `Str` model. -/
def strOf (s : String) : Str := s.toList

/-- Python `str.lower()`, character-wise. -/
def lower (s : Str) : Str := s.map Char.toLower

/-- Python's substring membership test `pat in s`. -/
def inStr (pat : Str) : Str → Bool
  | [] => pat.isEmpty
  | c :: t => pat.isPrefixOf (c :: t) || inStr pat t

/-- Python `s.split(sep, 1)` when `sep` occurs in `s`: the text before the first
occurrence and the text after it; `none` when `sep` does not occur. -/
def splitFirst (c : Char) : Str → Option (Str × Str)
  | [] => none
  | x :: xs =>
    if x = c then some ([], xs)
    else
      match splitFirst c xs with
      | none => none
      | some (a, b) => some (x :: a, b)

/-- Python `s.split(sep)` (no limit): every piece, empty pieces included. -/
def splitAll (c : Char) : Str → List Str
  | [] => [[]]
  | x :: xs =>
    let r := splitAll c xs
    if x = c then [] :: r
    else
      match r with
      | h :: t => (x :: h) :: t
      | [] => [[x]]

/-- Decimal rendering of a status code, as Python's f-string does. -/
def natToStr (n : Nat) : Str := strOf (toString n)

/-- The `STORAGE_CLASSIFICATION` mapping returned by
`get_storage_classification`, in the source's insertion (= iteration)
order. -/
def STORAGE_CLASSIFICATION : List (Str × Str) :=
  [ (strOf "s3.amazonaws.com", strOf "Amazon Web Services"),
    (strOf "data:image",       strOf "Base64 Encoded Image"),
    (strOf "blob:",            strOf "Blob"),
    (strOf "box.com",          strOf "Box"),
    (strOf "confluence",       strOf "Confluence"),
    (strOf "etrack:",          strOf "Etrack"),
    (strOf "googleusercontent", strOf "Google CDN"),
    (strOf "chat.google.com",  strOf "Google Chat"),
    (strOf "mail.google.com",  strOf "Google Mail"),
    (strOf "gstatic.com",      strOf "Google Static Content"),
    (strOf "imgur",            strOf "Imgur"),
    (strOf "jira",             strOf "JIRA"),
    (strOf "c:\\",             strOf "Local"),
    (strOf "file:///",         strOf "Local"),
    (strOf "wp-content",       strOf "WordPress"),
    (strOf "zendesk",          strOf "Zendesk") ]

/-- The default allowed-domain list of `get_allowed_domains`. -/
def default_domains : List Str := [strOf "example.com", strOf "cdn.example.com"]

/-- The loop body of `classify_image_storage`, over an arbitrary table. -/
def classifyAux (lowerUrl : Str) : List (Str × Str) → Str
  | [] => strOf "Other"
  | (key, c) :: rest =>
    if inStr (lower key) lowerUrl then c else classifyAux lowerUrl rest

/-- The function `classify_image_storage(url)`: first pattern of the table whose
lowercase form occurs in the lowercased URL, else `"Other"`. -/
def classify_image_storage (url : Str) : Str :=
  classifyAux (lower url) STORAGE_CLASSIFICATION

/-- The result of `urllib.parse.urlsplit`. -/
structure SplitResult where
  scheme : Str
  netloc : Str
  path : Str
  query : Str
  fragment : Str
deriving Repr, DecidableEq

/-- Characters CPython accepts inside a URL scheme. -/
def scheme_chars : Str :=
  strOf "abcdefghijklmnopqrstuvwxyzABCDEFGHIJKLMNOPQRSTUVWXYZ0123456789+-."

/-- Modelled from CPython `urllib.parse.urlsplit`: detach the scheme when
the text before the first `:` is a plausible scheme (nonempty, ASCII
letter first, scheme characters after), lowercasing it. -/
def splitScheme (url : Str) : Str × Str :=
  match splitFirst ':' url with
  | none => ([], url)
  | some (before, post) =>
    match before with
    | [] => ([], url)
    | c0 :: rest =>
      if c0.isAlpha ∧ ∀ c ∈ rest, c ∈ scheme_chars then (lower (c0 :: rest), post)
      else ([], url)

/-- Modelled from CPython `urllib.parse._splitnetloc`: when the remainder
starts with `//`, the netloc runs up to the first `/`, `?` or `#`. -/
def netlocSplit (u : Str) : Str × Str :=
  match u with
  | '/' :: '/' :: rest =>
    (rest.takeWhile fun c => !(c == '/' || c == '?' || c == '#'),
     rest.dropWhile fun c => !(c == '/' || c == '?' || c == '#'))
  | _ => ([], u)

/-- Split off the fragment at the first `#`, when present. -/
def fragSplit (u : Str) : Str × Str :=
  match splitFirst '#' u with
  | some (a, b) => (a, b)
  | none => (u, [])

/-- Split off the query at the first `?`, when present. -/
def querySplit (u : Str) : Str × Str :=
  match splitFirst '?' u with
  | some (a, b) => (a, b)
  | none => (u, [])

/-- Modelled from CPython `urllib.parse.urlsplit` (scheme, netloc, path,
query, fragment; see the file header for the omitted raw-URL cleanup). -/
def pyUrlsplit (url : Str) : SplitResult :=
  let sp := splitScheme url
  let nl := netlocSplit sp.2
  let fr := fragSplit nl.2
  let qu := querySplit fr.1
  ⟨sp.1, nl.1, qu.1, qu.2, fr.2⟩

/-- The `netloc` attribute of `urlparse(url)`. -/
def pyNetloc (url : Str) : Str := (pyUrlsplit url).netloc

/-- The schemes for which `urlparse` splits `;params` off the path. -/
def uses_params : List Str :=
  [ strOf "", strOf "ftp", strOf "hdl", strOf "prospero", strOf "http",
    strOf "imap", strOf "https", strOf "shttp", strOf "rtsp", strOf "rtspu",
    strOf "sip", strOf "sips", strOf "mms", strOf "sftp", strOf "tel" ]

/-- Modelled from CPython `urllib.parse._splitparams`, for a path known to
contain `;`: drop everything from the first `;` at or after the last `/`. -/
def splitParamsPath (p : Str) : Str :=
  if p.contains '/' then
    let afterSlash := (p.reverse.takeWhile fun c => !(c == '/')).reverse
    if afterSlash.contains ';' then
      p.take (p.length - afterSlash.length) ++ (afterSlash.takeWhile fun c => !(c == ';'))
    else p
  else p.takeWhile fun c => !(c == ';')

/-- The `path` attribute of `urlparse(url)` (params split off for the
schemes in `uses_params`, as CPython does). -/
def pyUrlparsePath (url : Str) : Str :=
  let r := pyUrlsplit url
  if r.scheme ∈ uses_params ∧ r.path.contains ';' then splitParamsPath r.path
  else r.path

/-- The predicate `is_allowed_domain(url)`: some configured entry, lowercased, occurs in
the lowercased netloc.  The module-global `ALLOWED_IMG_DOMAINS` is passed
explicitly, as the spec's §9 directs. -/
def is_allowed_domain (allowed : List Str) (url : Str) : Bool :=
  let domain := lower (pyNetloc url)
  allowed.any fun a => inStr (lower a) domain

/-- A network probe issued by `check_image`. -/
inductive ProbeCall where
  | head (url : Str)
  | get (url : Str)
deriving Repr, DecidableEq

/-- The injected HTTP transport: `session.head` and `session.get`, each
returning a status code or raising a `requests` exception (`.error` with
its message). -/
structure Net where
  headReq : Str → Except Str Nat
  getReq : Str → Except Str Nat

/-- The checker `check_image(url, session)`: CSP check first (no probe on violation);
otherwise a HEAD probe, retried once as GET on status 405; a final status
outside 200–299 is `"HTTP <code>"`, a transport exception is
`"Network Error: <detail>"`.  The second component records the probes
issued, in order. -/
def check_image (net : Net) (allowed : List Str) (url : Str) :
    Option Str × List ProbeCall :=
  if is_allowed_domain allowed url then
    match net.headReq url with
    | .error e => (some (strOf "Network Error: " ++ e), [.head url])
    | .ok status =>
      if status = 405 then
        match net.getReq url with
        | .error e => (some (strOf "Network Error: " ++ e), [.head url, .get url])
        | .ok status2 =>
          (if 200 ≤ status2 ∧ status2 < 300 then none
           else some (strOf "HTTP " ++ natToStr status2),
           [.head url, .get url])
      else
        (if 200 ≤ status ∧ status < 300 then none
         else some (strOf "HTTP " ++ natToStr status),
         [.head url])
  else (some (strOf "CSP Violation"), [])

/-- The message of the `ValueError` Python raises when a one-element list
is unpacked into two variables. -/
def pyErrValueUnpack : Str :=
  strOf "ValueError: not enough values to unpack (expected 2, got 1)"

/-- The data-URI truncation step of `scrape_and_check_images` (lines
217–220): for a URL starting with `data:image`, split at the first comma
(raising `ValueError` when there is none) and keep the first and last 20
payload characters around `"..."` when the payload exceeds 40 characters;
other URLs pass through unchanged. -/
def shorten_data_url (u : Str) : Except Str Str :=
  if (strOf "data:image").isPrefixOf u then
    match splitFirst ',' u with
    | none => .error pyErrValueUnpack
    | some (pre, payload) =>
      let shortened :=
        if 40 < payload.length then
          payload.take 20 ++ strOf "..." ++ payload.drop (payload.length - 20)
        else payload
      .ok (pre ++ [','] ++ shortened)
  else .ok u

/-- One row of the report, as assembled at lines 226–233. -/
structure ImageRecord where
  articleId : Str
  title : Str
  pageUrl : Str
  brokenImageUrl : Str
  httpStatusCode : Str
  storageLocation : Str
deriving Repr, DecidableEq

/-- The parse of a fetched page, restricted to what the pipeline reads:
the document title (`get_title`) and the `src` attributes of the `img`
elements found inside the content container, in document order. -/
structure Page where
  title : Str
  imgSrcs : List Str
deriving Repr, DecidableEq

/-- The injected boundary for one page run: the HTTP transport, the fetch
and parse of a page (`session.get` + `raise_for_status` + BeautifulSoup,
`.error` on any `requests` exception, non-2xx included), and `urljoin`. -/
structure Env where
  net : Net
  fetchPage : Str → Except Str Page
  resolve : Str → Str → Str

/-- The search of `get_article_id`: the segment after the first
`"article"` segment, or empty when absent or last. -/
def nextAfterArticle : List Str → Str
  | [] => []
  | seg :: rest =>
    if seg = strOf "article" then
      match rest with
      | next :: _ => next
      | [] => []
    else nextAfterArticle rest

/-- The function `get_article_id(url)`: nonempty segments of the parsed path, then the
segment after `"article"`. -/
def get_article_id (url : Str) : Str :=
  let pathParts := (splitAll '/' (pyUrlparsePath url)).filter fun s => !s.isEmpty
  nextAfterArticle pathParts

/-- The per-image loop of `scrape_and_check_images` (lines 213–233):
resolve the `src`, truncate data URIs (a `ValueError` there aborts the
whole loop, records collected so far included), check the image, and on a
failure reason assemble a record from the truncated URL and its
classification. -/
def check_images_loop (env : Env) (allowed : List Str)
    (pageUrl pageTitle artId : Str) : List Str → Except Str (List ImageRecord)
  | [] => .ok []
  | src :: rest =>
    match shorten_data_url (env.resolve pageUrl src) with
    | .error e => .error e
    | .ok imageUrl =>
      match check_images_loop env allowed pageUrl pageTitle artId rest with
      | .error e => .error e
      | .ok recs =>
        match (check_image env.net allowed imageUrl).1 with
        | some reason =>
          .ok ({ articleId := artId, title := pageTitle, pageUrl := pageUrl,
                 brokenImageUrl := imageUrl, httpStatusCode := reason,
                 storageLocation := classify_image_storage imageUrl } :: recs)
        | none => .ok recs

/-- The pipeline `scrape_and_check_images(url, session)`: a fetch failure is caught and
yields `[]`; otherwise the per-image loop runs over the parsed page.
`get_article_id(url)` and the title are pure, so the per-record calls of
the source are computed once here. -/
def scrape_and_check_images (env : Env) (allowed : List Str) (url : Str) :
    Except Str (List ImageRecord) :=
  match env.fetchPage url with
  | .error _ => .ok []
  | .ok page =>
    check_images_loop env allowed url page.title (get_article_id url) page.imgSrcs

/-- The injected filesystem for `save_to_csv`: directory creation and the
open-plus-write of the report file. -/
structure FS where
  mkdir : Str → Except Str Unit
  writeFile : Str → Str → Except Str Unit

/-- One CSV field under `csv.QUOTE_ALL`: quoted, inner quotes doubled. -/
def escapeQuotes : Str → Str
  | [] => []
  | c :: t => if c = '"' then '"' :: '"' :: escapeQuotes t else c :: escapeQuotes t

/-- Render one field, quoted. -/
def csvField (f : Str) : Str := '"' :: (escapeQuotes f ++ ['"'])

/-- Join strings with a separator. -/
def joinWith (sep : Str) : List Str → Str
  | [] => []
  | [x] => x
  | x :: y :: t => x ++ sep ++ joinWith sep (y :: t)

/-- One CSV row with the writer's `\r\n` terminator. -/
def csvRow (fields : List Str) : Str :=
  joinWith (strOf ",") (fields.map csvField) ++ strOf "\r\n"

/-- The six fixed column names, in order. -/
def csvHeader : List Str :=
  [ strOf "Article ID", strOf "Title", strOf "Page URL",
    strOf "Broken Image URL", strOf "HTTP Status Code", strOf "Storage Location" ]

/-- A record's fields in column order. -/
def recordFields (r : ImageRecord) : List Str :=
  [r.articleId, r.title, r.pageUrl, r.brokenImageUrl, r.httpStatusCode,
   r.storageLocation]

/-- The full text `csv.DictWriter` emits: header row then one row per
record, all fields quoted. -/
def csvContent (data : List ImageRecord) : Str :=
  csvRow csvHeader ++ (data.map fun r => csvRow (recordFields r)).foldr (· ++ ·) []

/-- The writer `save_to_csv` (lines 273–294): the parent
directory is created at line 285, before and outside the `try` block, so
a failure there propagates; the `try` covers only opening and writing the
file, whose failure is caught and logged.  The timestamp and the
configured `OUTPUT_DIRECTORY` are passed in. -/
def save_to_csv (fs : FS) (outputDir : Str) (data : List ImageRecord)
    (pfx timestamp : Str) : Except Str Unit :=
  let filename := pfx ++ strOf "_" ++ timestamp ++ strOf ".csv"
  let outputPath := outputDir ++ strOf "/" ++ filename
  match fs.mkdir outputDir with
  | .error e => .error e
  | .ok _ =>
    match fs.writeFile outputPath (csvContent data) with
    | .error _ => .ok ()
    | .ok _ => .ok ()

/-! Concrete fixtures used by witnesses and counterexamples. -/

/-- A transport whose every probe succeeds with 200. -/
def dummyNet : Net := { headReq := fun _ => .ok 200, getReq := fun _ => .ok 200 }

/-- A transport answering 405 to HEAD and 404 to GET. -/
def net405 : Net := { headReq := fun _ => .ok 405, getReq := fun _ => .ok 404 }

/-- A transport answering 404 to everything. -/
def net404 : Net := { headReq := fun _ => .ok 404, getReq := fun _ => .ok 404 }

/-- A page holding one image on an allowed CDN host. -/
def page6 : Page :=
  { title := strOf "T", imgSrcs := [strOf "https://cdn.example.com/img/a.png"] }

/-- Environment for the round-trip witness: every image answers 404. -/
def env6 : Env :=
  { net := net404, fetchPage := fun _ => .ok page6, resolve := fun _ src => src }

/-- The record `env6` produces on the witness page. -/
def rec6 : ImageRecord :=
  { articleId := strOf "123", title := strOf "T",
    pageUrl := strOf "https://www.example.com/article/123/x",
    brokenImageUrl := strOf "https://cdn.example.com/img/a.png",
    httpStatusCode := strOf "HTTP 404", storageLocation := strOf "Other" }

/-- An environment whose page fetch always fails. -/
def envFetchFail : Env :=
  { net := dummyNet, fetchPage := fun _ => .error (strOf "ConnectionError"),
    resolve := fun _ src => src }

/-- A page whose second image is a `data:image` URI with no comma. -/
def page10 : Page :=
  { title := strOf "T",
    imgSrcs := [strOf "https://cdn.example.com/img/a.png",
                strOf "data:image/gif;base64R0lGODlh"] }

/-- Environment exhibiting the comma-less data-URI failure. -/
def env10 : Env :=
  { net := net404, fetchPage := fun _ => .ok page10, resolve := fun _ src => src }

/-- A 41-character base64 payload of capital As. -/
def textPayload : Str := strOf "AAAAAAAAAAAAAAAAAAAAAAAAAAAAAAAAAAAAAAAAA"

/-- A base64 data URI that is not an image: 41-character payload. -/
def textDataUri : Str :=
  strOf "data:text/plain;base64,AAAAAAAAAAAAAAAAAAAAAAAAAAAAAAAAAAAAAAAAA"

/-- The form the truncation law of the spec would predict for
`textDataUri`. -/
def textDataUriTruncated : Str :=
  strOf "data:text/plain;base64,AAAAAAAAAAAAAAAAAAAA...AAAAAAAAAAAAAAAAAAAA"

/-- An image data URI with a 41-character payload, for the truncation
witness. -/
def imageDataUri : Str :=
  strOf "data:image/png;base64,iVBORw0KGgoAAAANSUhEUgAAAAEAAAABCAYAAAAfF"

/-- The payload of `imageDataUri`. -/
def imagePayload : Str := strOf "iVBORw0KGgoAAAANSUhEUgAAAAEAAAABCAYAAAAfF"

/-- The truncated form of `imageDataUri`. -/
def imageDataUriTruncated : Str :=
  strOf "data:image/png;base64,iVBORw0KGgoAAAANSUhE...gAAAAEAAAABCAYAAAAfF"

/-- A URL that starts with `data:image` yet contains the earlier table
pattern `s3.amazonaws.com`. -/
def url9cex : Str := strOf "data:images3.amazonaws.com,x"

/-- A filesystem whose directory creation is denied. -/
def fsDenied : FS :=
  { mkdir := fun _ => .error (strOf "PermissionError: [Errno 13] Permission denied"),
    writeFile := fun _ _ => .ok () }

/-- A filesystem where directories succeed but the file write fails. -/
def fsWriteFail : FS :=
  { mkdir := fun _ => .ok (),
    writeFile := fun _ _ => .error (strOf "OSError: [Errno 28] No space left on device") }

end CheckBrokenImages

namespace CheckBrokenImages

theorem inStr_nil (pat : Str) : inStr pat [] = pat.isEmpty := rfl

theorem inStr_eq_true_iff (pat : Str) : ∀ s : Str, inStr pat s = true ↔ pat <:+: s
  | [] => by
    simp [inStr, List.isEmpty_iff, List.infix_nil]
  | c :: t => by
    rw [inStr, Bool.or_eq_true, List.infix_cons_iff]
    rw [inStr_eq_true_iff pat t]
    rw [ List.isPrefixOf_iff_prefix]

theorem classifyAux_eq_find (u : Str) : ∀ t : List (Str × Str),
    classifyAux u t =
      ((t.find? fun kc => inStr (lower kc.1) u).map Prod.snd).getD (strOf "Other")
  | [] => rfl
  | (k, c) :: rest => by
    by_cases h : inStr (lower k) u = true
    · simp [classifyAux, h, List.find?_cons_of_pos]
    · rw [Bool.not_eq_true] at h
      simp [classifyAux, h, List.find?_cons_of_neg, classifyAux_eq_find u rest]

/-- Claim C1: for every URL string, `classify_image_storage` returns the
label of the first entry of `STORAGE_CLASSIFICATION`, in its fixed
iteration order, whose lowercased pattern is a substring of the
lowercased URL, and returns `"Other"` when no pattern matches.  The
function is a total Lean function, hence pure and total on all inputs. -/
theorem classify_first_match (url : Str) :
    classify_image_storage url =
      ((STORAGE_CLASSIFICATION.find? fun kc =>
          inStr (lower kc.1) (lower url)).map Prod.snd).getD (strOf "Other") :=
  classifyAux_eq_find (lower url) STORAGE_CLASSIFICATION

theorem lower_append (a b : Str) : lower (a ++ b) = lower a ++ lower b :=
  List.map_append _ a b

theorem splitFirst_eq_of_not_mem (c : Char) :
    ∀ (pre post : Str), c ∉ pre → splitFirst c (pre ++ c :: post) = some (pre, post)
  | [], post, _ => by simp [splitFirst]
  | x :: xs, post, h => by
    have hx : ¬ x = c := fun hxc => h (by rw [hxc]; exact List.mem_cons_self c xs)
    have hrec := splitFirst_eq_of_not_mem c xs post fun hm => h (List.mem_cons_of_mem x hm)
    simp [splitFirst, hx, hrec]

/-- Claim C2 (amended): `is_allowed_domain` returns true exactly when some
entry, lowercased, is a substring of the lowercased netloc; and, provided
every entry is nonempty, a URL whose netloc parses as empty is rejected.
(The unamended empty-host clause fails for allow-lists holding the empty
string; see the counterexample.) -/
theorem is_allowed_domain_spec (allowed : List Str) (url : Str) :
    (is_allowed_domain allowed url = true ↔
      ∃ d ∈ allowed, lower d <:+: lower (pyNetloc url)) ∧
    ((∀ d ∈ allowed, d ≠ []) → pyNetloc url = [] →
      is_allowed_domain allowed url = false) := by
  constructor
  · simp only [is_allowed_domain, List.any_eq_true, inStr_eq_true_iff]
  · intro hne h0
    simp only [is_allowed_domain, h0, List.any_eq_false]
    intro a ha hcontra
    rw [inStr_eq_true_iff] at hcontra
    have hnil : lower a = [] := List.infix_nil.mp (by simpa [lower] using hcontra)
    exact hne a ha (List.map_eq_nil_iff.mp hnil)

/-- Claim C2, counterexample to the unamended claim: with an allow-list
holding the empty string, a URL whose host parses as empty is still
accepted, because the empty string is a substring of the empty host. -/
theorem is_allowed_empty_entry_cex :
    pyNetloc (strOf "data:image/png;base64,AAA") = [] ∧
    is_allowed_domain [[]] (strOf "data:image/png;base64,AAA") = true := by
  decide

/-- Witness for the amended claim C2 at a concrete input: a hostless data
URI is rejected under the default-style nonempty allow-list. -/
theorem is_allowed_domain_spec_witness :
    is_allowed_domain [strOf "example.com"] (strOf "data:image/png;base64,AAA") = false :=
  (is_allowed_domain_spec [strOf "example.com"] (strOf "data:image/png;base64,AAA")).2
    (by decide) (by decide)

/-- Claim C3: on a URL failing the domain policy, `check_image` returns
`"CSP Violation"` and issues no network probe at all. -/
theorem check_image_disallowed (net : Net) (allowed : List Str) (url : Str)
    (h : is_allowed_domain allowed url = false) :
    check_image net allowed url = (some (strOf "CSP Violation"), []) := by
  simp [check_image, h]

/-- Witness for claim C3 at a concrete disallowed URL. -/
theorem check_image_disallowed_witness :
    check_image dummyNet [strOf "example.com"] (strOf "https://evil.org/a.png") =
      (some (strOf "CSP Violation"), []) :=
  check_image_disallowed dummyNet [strOf "example.com"] (strOf "https://evil.org/a.png")
    (by decide)

/-- Claim C4: on an allowed URL whose HEAD probe answers 405, exactly one
follow-up GET is issued — the probe trace is `[HEAD, GET]` — and the
verdict comes from the GET status alone, with no further retry even when
it is again 405; on any other HEAD status no GET is issued.  In both
cases a final status inside 200–299 passes and any other final status
fails with `"HTTP <status>"`. -/
theorem check_image_head405 (net : Net) (allowed : List Str) (url : Str)
    (hAllow : is_allowed_domain allowed url = true) :
    (net.headReq url = .ok 405 →
      (check_image net allowed url).2 = [ProbeCall.head url, ProbeCall.get url] ∧
      ∀ s, net.getReq url = .ok s →
        (check_image net allowed url).1 =
          if 200 ≤ s ∧ s < 300 then none
          else some (strOf "HTTP " ++ natToStr s)) ∧
    (∀ s, net.headReq url = .ok s → s ≠ 405 →
      (check_image net allowed url).2 = [ProbeCall.head url] ∧
      (check_image net allowed url).1 =
        if 200 ≤ s ∧ s < 300 then none
        else some (strOf "HTTP " ++ natToStr s)) := by
  refine ⟨fun h405 => ⟨?_, fun s hs => ?_⟩, fun s hs hne => ?_⟩
  · cases hg : net.getReq url <;> simp [check_image, hAllow, h405, hg]
  · simp [check_image, hAllow, h405, hs]
  · simp [check_image, hAllow, hs, hne]

/-- Witness for claim C4: a server answering 405 to HEAD and 404 to GET
produces the trace `[HEAD, GET]` and the failure `"HTTP 404"`. -/
theorem check_image_head405_witness :
    (check_image net405 [strOf "example.com"] (strOf "https://example.com/i.png")).2 =
      [ProbeCall.head (strOf "https://example.com/i.png"),
       ProbeCall.get (strOf "https://example.com/i.png")] ∧
    (check_image net405 [strOf "example.com"] (strOf "https://example.com/i.png")).1 =
      some (strOf "HTTP 404") := by
  have h := check_image_head405 net405 [strOf "example.com"]
    (strOf "https://example.com/i.png") (by decide)
  exact ⟨(h.1 rfl).1, ((h.1 rfl).2 404 rfl).trans (by decide)⟩

/-- Claim C5, counterexample to the unamended claim: `textDataUri` is a
base64 data URI whose payload after the first comma has 41 > 40
characters, so the claimed truncation law predicts the shortened form
`textDataUriTruncated`; the code keys truncation on the literal prefix
`data:image`, not on base64-ness, and stores the URL unchanged. -/
theorem shorten_base64_claim_cex :
    splitFirst ',' textDataUri = some (strOf "data:text/plain;base64", textPayload) ∧
    40 < textPayload.length ∧
    strOf "data:text/plain;base64" ++ [','] ++
      (textPayload.take 20 ++ strOf "..." ++
        textPayload.drop (textPayload.length - 20)) = textDataUriTruncated ∧
    shorten_data_url textDataUri = .ok textDataUri ∧
    textDataUri ≠ textDataUriTruncated := by
  decide

/-- Claim C5 (amended): the truncation step applies exactly to URLs
beginning with `data:image`.  A URL not beginning with `data:image` is
never modified; for one that does begin with it and whose payload after
the first comma exceeds 40 characters, the stored URL is the part up to
and including that comma, the first 20 payload characters, `"..."`, and
the last 20; with payload of at most 40 characters the URL is stored
unchanged. -/
theorem shorten_data_url_spec (u : Str) :
    (¬ (strOf "data:image").isPrefixOf u → shorten_data_url u = .ok u) ∧
    (∀ pre payload, u = pre ++ [','] ++ payload → ',' ∉ pre →
      (strOf "data:image").isPrefixOf u →
      shorten_data_url u =
        .ok (pre ++ [','] ++
          (if 40 < payload.length then
            payload.take 20 ++ strOf "..." ++ payload.drop (payload.length - 20)
          else payload))) := by
  constructor
  · intro h
    simp [shorten_data_url, h]
  · intro pre payload hu hc hp
    have he : pre ++ [','] ++ payload = pre ++ ',' :: payload := by simp
    have hsp : splitFirst ',' u = some (pre, payload) := by
      rw [hu, he]
      exact splitFirst_eq_of_not_mem ',' pre payload hc
    rw [shorten_data_url, if_pos hp, hsp]

/-- Witness for the amended claim C5: a `data:image` URI with a
41-character payload is stored in its truncated form. -/
theorem shorten_data_url_spec_witness :
    shorten_data_url imageDataUri = .ok imageDataUriTruncated := by
  have h := (shorten_data_url_spec imageDataUri).2 (strOf "data:image/png;base64")
    imagePayload (by decide) (by decide) (by decide)
  exact h.trans (by decide)

theorem check_images_loop_storage (env : Env) (allowed : List Str)
    (pu pt aid : Str) :
    ∀ (srcs : List Str) (recs : List ImageRecord),
      check_images_loop env allowed pu pt aid srcs = .ok recs →
      ∀ r ∈ recs, r.storageLocation = classify_image_storage r.brokenImageUrl
  | [], recs, h => by
    rw [check_images_loop] at h
    injection h with h'
    subst h'
    intro r hr
    cases hr
  | src :: rest, recs, h => by
    rw [check_images_loop] at h
    cases hs : shorten_data_url (env.resolve pu src) with
    | error e => simp only [hs] at h; exact Except.noConfusion h
    | ok imageUrl =>
      cases hr : check_images_loop env allowed pu pt aid rest with
      | error e => simp only [hs, hr] at h; exact Except.noConfusion h
      | ok recsRest =>
        have ih := check_images_loop_storage env allowed pu pt aid rest recsRest hr
        cases hc : (check_image env.net allowed imageUrl).1 with
        | some reason =>
          simp only [hs, hr, hc] at h
          injection h with h'
          subst h'
          intro r hr2
          rcases List.mem_cons.mp hr2 with h1 | h2
          · rw [h1]
          · exact ih r h2
        | none =>
          simp only [hs, hr, hc] at h
          injection h with h'
          subst h'
          exact ih

/-- Claim C6: every record the page pipeline emits stores in
`storageLocation` exactly the classification of the URL string stored in
its own `brokenImageUrl` field — the post-truncation URL; classification
and record assembly operate on the same string. -/
theorem scrape_storage_roundtrip (env : Env) (allowed : List Str) (url : Str)
    (recs : List ImageRecord)
    (h : scrape_and_check_images env allowed url = .ok recs) :
    ∀ r ∈ recs, r.storageLocation = classify_image_storage r.brokenImageUrl := by
  rw [scrape_and_check_images] at h
  cases hf : env.fetchPage url with
  | error e =>
    rw [hf] at h
    injection h with h'
    subst h'
    intro r hr
    cases hr
  | ok page =>
    rw [hf] at h
    exact check_images_loop_storage env allowed url page.title (get_article_id url)
      page.imgSrcs recs h

/-- Witness for claim C6: the concrete run of `env6` emits exactly
`[rec6]`, and its stored classification matches the classification of its
stored URL. -/
theorem scrape_storage_roundtrip_witness :
    rec6.storageLocation = classify_image_storage rec6.brokenImageUrl :=
  scrape_storage_roundtrip env6 [strOf "example.com"]
    (strOf "https://www.example.com/article/123/x") [rec6] (by decide) rec6
    (List.mem_singleton.mpr rfl)

/-- Claim C7: when the page fetch fails (`requests` raises, non-2xx
statuses included, thanks to `raise_for_status`), per-page extraction
catches the exception and returns the empty record list — `.ok []`, not
an error — so the failed page contributes zero records and no exception
reaches the caller. -/
theorem scrape_fetch_failure (env : Env) (allowed : List Str) (url e : Str)
    (h : env.fetchPage url = .error e) :
    scrape_and_check_images env allowed url = .ok [] := by
  rw [scrape_and_check_images, h]

/-- Witness for claim C7 at a concrete always-failing fetch. -/
theorem scrape_fetch_failure_witness :
    scrape_and_check_images envFetchFail [strOf "example.com"]
      (strOf "https://www.example.com/p") = .ok [] :=
  scrape_fetch_failure envFetchFail [strOf "example.com"]
    (strOf "https://www.example.com/p") (strOf "ConnectionError") rfl

/-- Claim C10: a well-formed page holding an image whose resolved source
starts with `data:image` but has no comma makes the truncation step's
two-variable unpack raise `ValueError`, aborting record collection for
the whole page — the run of `env10` ends in `.error`, although its first
image alone would have produced a record. -/
theorem scrape_no_comma_data_uri_error :
    scrape_and_check_images env10 [strOf "example.com"]
      (strOf "https://www.example.com/article/9/p") = .error pyErrValueUnpack := by
  decide

/-- Claim C8, counterexample to the unamended claim: directory creation
runs before and outside the `try` block, so its failure propagates out of
`save_to_csv` instead of being caught. -/
theorem save_to_csv_mkdir_cex :
    save_to_csv fsDenied (strOf "reports/broken_images") []
      (strOf "broken_images_single_page") (strOf "20260101_000000") =
      .error (strOf "PermissionError: [Errno 13] Permission denied") := by
  decide

/-- Claim C8 (amended): once the output directory has been created, any
failure while opening or writing the report file is caught and logged and
`save_to_csv` returns normally; a failure of the directory creation
itself, which the source performs outside the `try` block, propagates. -/
theorem save_to_csv_write_failure_caught (fs : FS) (dir : Str)
    (data : List ImageRecord) (pfx ts : Str) (h : fs.mkdir dir = .ok ()) :
    save_to_csv fs dir data pfx ts = .ok () := by
  rw [save_to_csv]
  simp only [h]
  cases fs.writeFile (dir ++ strOf "/" ++ (pfx ++ strOf "_" ++ ts ++ strOf ".csv"))
    (csvContent data) <;> rfl

/-- Witness for the amended claim C8: a full disk fails the write, yet
`save_to_csv` returns normally. -/
theorem save_to_csv_write_failure_caught_witness :
    save_to_csv fsWriteFail (strOf "reports/broken_images") []
      (strOf "broken_images_single_page") (strOf "20260101_000000") = .ok () :=
  save_to_csv_write_failure_caught fsWriteFail (strOf "reports/broken_images") []
    (strOf "broken_images_single_page") (strOf "20260101_000000") rfl

theorem splitScheme_data_image (t : Str) :
    splitScheme (strOf "data:image" ++ t) = (strOf "data", strOf "image" ++ t) := by
  have h1 : splitFirst ':' (strOf "data:image" ++ t) =
      some (strOf "data", strOf "image" ++ t) := by
    have he : strOf "data:image" ++ t = strOf "data" ++ ':' :: (strOf "image" ++ t) := rfl
    rw [he]
    exact splitFirst_eq_of_not_mem ':' (strOf "data") (strOf "image" ++ t) (by decide)
  rw [splitScheme, h1]
  rfl

theorem pyNetloc_data_image (t : Str) :
    pyNetloc (strOf "data:image" ++ t) = [] := by
  rw [pyNetloc, pyUrlsplit, splitScheme_data_image]
  rfl

theorem is_allowed_data_image_false (allowed : List Str) (t : Str)
    (hne : ∀ d ∈ allowed, d ≠ []) :
    is_allowed_domain allowed (strOf "data:image" ++ t) = false := by
  simp only [is_allowed_domain, pyNetloc_data_image, List.any_eq_false]
  intro a ha hcontra
  rw [inStr_eq_true_iff] at hcontra
  have hnil : lower a = [] := List.infix_nil.mp (by simpa [lower] using hcontra)
  exact hne a ha (List.map_eq_nil_iff.mp hnil)

/-- Claim C9 (amended): provided no allow-list entry is empty, every URL
beginning with `data:image` parses to an empty netloc, fails the domain
policy, and so gets `"CSP Violation"` from `check_image` with no network
probe; it is classified `"Base64 Encoded Image"` unless the URL also
contains the one earlier table pattern `s3.amazonaws.com`, whose label
takes priority (see the counterexample for that exception). -/
theorem data_image_check (net : Net) (allowed : List Str) (url : Str)
    (hne : ∀ d ∈ allowed, d ≠ [])
    (hp : (strOf "data:image").isPrefixOf url = true) :
    check_image net allowed url = (some (strOf "CSP Violation"), []) ∧
    (inStr (strOf "s3.amazonaws.com") (lower url) = false →
      classify_image_storage url = strOf "Base64 Encoded Image") := by
  rw [ List.isPrefixOf_iff_prefix] at hp
  obtain ⟨t, rfl⟩ := hp
  constructor
  · have hfa := is_allowed_data_image_false allowed t hne
    simp [check_image, hfa]
  · intro hs3
    have e1 : lower (strOf "s3.amazonaws.com") = strOf "s3.amazonaws.com" := by decide
    have e2 : inStr (lower (strOf "data:image")) (lower (strOf "data:image" ++ t)) = true := by
      have el : lower (strOf "data:image") = strOf "data:image" := by decide
      rw [el, lower_append, el, inStr_eq_true_iff]
      exact ⟨[], lower t, rfl⟩
    rw [classify_image_storage, STORAGE_CLASSIFICATION]
    rw [classifyAux, e1, hs3]
    rw [if_neg (by simp)]
    rw [classifyAux, e2]
    rfl

/-- Claim C9, counterexample to the unamended claim: a URL beginning with
`data:image` that also contains `s3.amazonaws.com` — stable under the
truncation step — is classified `"Amazon Web Services"`, because that
pattern precedes `data:image` in the table's iteration order. -/
theorem data_image_classify_cex :
    (strOf "data:image").isPrefixOf url9cex = true ∧
    shorten_data_url url9cex = .ok url9cex ∧
    classify_image_storage url9cex = strOf "Amazon Web Services" ∧
    strOf "Amazon Web Services" ≠ strOf "Base64 Encoded Image" := by
  decide

/-- Witness for the amended claim C9 at a concrete data URI under the
default-style allow-list. -/
theorem data_image_check_witness :
    check_image dummyNet [strOf "example.com"] (strOf "data:image/png;base64,iVBORw0KG") =
      (some (strOf "CSP Violation"), []) ∧
    classify_image_storage (strOf "data:image/png;base64,iVBORw0KG") =
      strOf "Base64 Encoded Image" := by
  have h := data_image_check dummyNet [strOf "example.com"]
    (strOf "data:image/png;base64,iVBORw0KG") (by decide) (by decide)
  exact ⟨h.1, h.2 (by decide)⟩

end CheckBrokenImages
